import Mathlib

/-!
Verification development for the humanoid-physical-ai-book backend:
a shallow embedding of the retrieval-augmented chat core
(`src/api/chat.py`, `src/services/retrieving.py`, `src/services/agent.py`)
with theorems settling the specified properties of the rate limiter,
input sanitizer, vector retrieval, conversation store, endpoint error
propagation and per-session locking.
-/

set_option autoImplicit false

namespace ChatBackend

/-! ## Rate limiter (`src/api/chat.py`, lines 23-43) -/

/-- Recorded request timestamps of one caller origin
(`request_counts[client_ip]`).  Wall-clock instants (Python `time.time()`)
are modelled as integers: the limiter only compares time differences
against the 60-second window, so nothing depends on sub-second
granularity. -/
abbrev Timestamps := List Int

/-- Constant `RATE_LIMIT = 10` (max requests per window). -/
def RATE_LIMIT : Nat := 10

/-- Constant `RATE_LIMIT_WINDOW = 60` (seconds). -/
def RATE_LIMIT_WINDOW : Int := 60

/-- Model of `is_rate_limited` restricted to one client origin: prune the
origin's recorded timestamps to those strictly younger than the window,
reject when the pruned count has reached `RATE_LIMIT` (without recording),
otherwise record `now`.  Returns the limited flag together with the updated
`request_counts[client_ip]` list. -/
def is_rate_limited (now : Int) (times : Timestamps) : Bool × Timestamps :=
  let pruned := times.filter (fun t => now - t < RATE_LIMIT_WINDOW)
  if RATE_LIMIT ≤ pruned.length then
    (true, pruned)
  else
    (false, pruned ++ [now])

/-- Drive `is_rate_limited` over a sequence of request times, starting from a
given recorded-timestamp state; returns the list of admission flags
(`true` = admitted) and the final state. -/
def admitSeq (reqs : List Int) (times : Timestamps) : List Bool × Timestamps :=
  reqs.foldl
    (fun acc t =>
      let r := is_rate_limited t acc.2
      (acc.1 ++ [!r.1], r.2))
    ([], times)

/-! ## Input sanitizer (`src/api/chat.py`, lines 45-60) -/

/-- Model of Python `html.escape(text, quote=True)` on one character.  The
library call is a chain of `str.replace` steps (`&` first, then `<`, `>`,
`"`, the apostrophe); since the replacement targets are single characters
and no later target occurs in an earlier replacement string, the chain is
equivalent to this character-wise map. -/
def escapeChar (c : Char) : List Char :=
  if c = '&' then ['&', 'a', 'm', 'p', ';']
  else if c = '<' then ['&', 'l', 't', ';']
  else if c = '>' then ['&', 'g', 't', ';']
  else if c = '"' then ['&', 'q', 'u', 'o', 't', ';']
  else if c = Char.ofNat 39 then ['&', Char.ofNat 35, 'x', '2', '7', ';']
  else [c]

/-- Characters removed by the control-character regex
`[\x00-\x08\x0B\x0C\x0E-\x1F\x7F]` on line 54: every control character
except tab (0x09), newline (0x0A) and carriage return (0x0D). -/
def isStrippedControl (c : Char) : Bool :=
  (c.toNat ≤ 0x08) || (c.toNat == 0x0B) || (c.toNat == 0x0C) ||
    (0x0E ≤ c.toNat && c.toNat ≤ 0x1F) || (c.toNat == 0x7F)

/-- Holds of a character that is none of the raw markup delimiters the
escape step eliminates: `<`, `>`, `"` and the apostrophe. -/
def noRawMarkup (c : Char) : Bool :=
  !(c == '<' || c == '>' || c == '"' || c == Char.ofNat 39)

/-- Model of `sanitize_input` on the character list of the input string:
return falsy (empty) input unchanged; otherwise HTML-escape, strip the
control characters, and truncate to 5000 characters when longer. -/
def sanitize_input (text : List Char) : List Char :=
  if text = [] then text
  else
    let escaped := text.flatMap escapeChar
    let stripped := escaped.filter (fun c => !isStrippedControl c)
    if 5000 < stripped.length then stripped.take 5000 else stripped

/-- String-typed wrapper of `sanitize_input`. -/
def sanitize_input_str (s : String) : String :=
  String.mk (sanitize_input s.toList)

/-- Model of line 95 (and the identical line 258):
`max(1, min(chat_request.context_window, 10))`. -/
def sanitized_context_window (context_window : Int) : Int :=
  max 1 (min context_window 10)

/-! ## Vector retrieval (`src/services/retrieving.py`, lines 42-81) -/

/-- Point payload as stored in the vector collection, modelled as a
string-valued mapping (association list with the dict's key order);
`with_payload=True` makes the payload of every returned point such a
mapping. -/
abbrev Payload := List (String × String)

/-- Model of Python `str()` of a string-valued dict, as applied to a whole
payload by the final fallback of the mapping loop. -/
def strPayload (p : Payload) : String :=
  "\x7b" ++
    String.intercalate ", "
      (p.map (fun kv => "'" ++ kv.1 ++ "': '" ++ kv.2 ++ "'")) ++
    "\x7d"

/-- One scored point returned by `qdrant.query_points` (id and vector are
never read by `retrieve` and are omitted). -/
structure ScoredPoint where
  payload : Payload
  score : Rat
deriving DecidableEq

/-- Metadata attached to a retrieved chunk: the `text` branch stores the
payload's `metadata` entry (lines 59-64; `none` models the absent key whose
Python default is the empty dict), the fallback branch stores the whole
payload (lines 65-72). -/
inductive ChunkMeta where
  | keyed (v : Option String)
  | whole (p : Payload)
deriving DecidableEq

/-- One element of the list `retrieve` returns (the dicts built on
lines 60-64 and 68-72). -/
structure RetrievedChunk where
  content : String
  score : Rat
  metadata : ChunkMeta
deriving DecidableEq

/-- Body of the mapping loop (lines 57-72): when the key `text` is present
the chunk content is its value; otherwise the content is the payload's
`content` value when that value is truthy (non-empty), and the stringified
payload otherwise (`payload.get("content") or payload.get("text") or
str(payload)`, with `text` known absent in that branch). -/
def mapPoint (point : ScoredPoint) : RetrievedChunk :=
  match point.payload.lookup "text" with
  | some t =>
      { content := t
        score := point.score
        metadata := .keyed (point.payload.lookup "metadata") }
  | none =>
      let content :=
        match point.payload.lookup "content" with
        | some c => if c = "" then strPayload point.payload else c
        | none => strPayload point.payload
      { content := content
        score := point.score
        metadata := .whole point.payload }

/-- External collaborators of `retrieve`: the embedding model
(`get_embedding`, which re-raises any model failure) and the vector store
(`qdrant.query_points`); each either raises (error message) or returns. -/
structure RetrieveEnv where
  embed : String → Except String (List Rat)
  query_points : String → List Rat → Nat → Except String (List ScoredPoint)

/-- Model of `retrieve(query, collection_name, limit)`: embed the query,
run the similarity search, and map every returned point; the enclosing
`try/except` turns any failure of either collaborator into the empty
list. -/
def retrieve (env : RetrieveEnv) (query : String) (collection_name : String)
    (limit : Nat) : List RetrievedChunk :=
  match env.embed query with
  | .error _ => []
  | .ok embedding =>
      match env.query_points collection_name embedding limit with
      | .error _ => []
      | .ok points => points.map mapPoint

/-- An environment in which both collaborators raise (vector store and
embedding model down). -/
def failingEnv : RetrieveEnv :=
  { embed := fun _ => .error "down"
    query_points := fun _ _ _ => .error "down" }

/-- An environment whose similarity search returns a single point whose
payload has an empty-string `content` value and no `text` key. -/
def emptyContentEnv : RetrieveEnv :=
  { embed := fun _ => .ok [0]
    query_points := fun _ _ _ => .ok [{ payload := [("content", "")], score := 1 }] }

/-! ## Conversation store (`src/services/agent.py`, lines 45-47 and 79-191) -/

/-- One conversation message as the store keeps it: role and content.
The wall-clock timestamp attached on append (and echoed back on read) is
incidental bookkeeping and is omitted from the model, as is the optional
sources list that only the durable rows carry. -/
abbrev Msg := String × String

/-- Process state of the conversation store: the durable rows (ordered as
created, keyed by the session id in canonical form) and the in-process
cache `conversation_contexts`. -/
structure ConvState where
  durable : List (String × Msg)
  cache : String → List Msg

/-- Availability of the durable store and the session-id format check:
`isUUID` models success of Python's `UUID(session_id)` constructor (session
ids assumed already canonical when valid), `writeOk` is false when all
three write attempts raise, `readOk` is false when all three read attempts
raise. -/
structure StoreEnv where
  isUUID : String → Bool
  writeOk : Bool
  readOk : Bool

/-- The empty conversation store. -/
def emptyConv : ConvState :=
  { durable := [], cache := fun _ => [] }

/-- Append one message to the cache entry of one session. -/
def cacheAppend (cache : String → List Msg) (session_id role content : String) :
    String → List Msg :=
  fun s => if s = session_id then cache s ++ [(role, content)] else cache s

/-- Model of `add_message_to_context_in_db` (lines 133-174): when the
durable store is reachable, a non-UUID session id returns without writing
and a valid one appends a durable row; when every attempt raises, the
final attempt falls back to appending to the in-process cache (the raise
happens before the UUID parse, so the fallback runs for any session
id). -/
def add_message_to_context_in_db (env : StoreEnv)
    (session_id role content : String) (st : ConvState) : ConvState :=
  if env.writeOk then
    if env.isUUID session_id then
      { st with durable := st.durable ++ [(session_id, (role, content))] }
    else st
  else
    { st with cache := cacheAppend st.cache session_id role content }

/-- Model of `add_message_to_context` (lines 179-191): attempt the durable
write, then unconditionally append to the in-process cache as well. -/
def add_message_to_context (env : StoreEnv)
    (session_id role content : String) (st : ConvState) : ConvState :=
  let st1 := add_message_to_context_in_db env session_id role content st
  { st1 with cache := cacheAppend st1.cache session_id role content }

/-- Model of `get_conversation_context_from_db` (lines 90-130): with the
store reachable, a non-UUID session id yields the empty list and a valid
one yields that session's durable rows in creation order; when every
attempt raises, the final attempt falls back to the in-process cache
entry. -/
def get_conversation_context_from_db (env : StoreEnv) (session_id : String)
    (st : ConvState) : List Msg :=
  if env.readOk then
    if env.isUUID session_id then
      (st.durable.filter (fun r => r.1 = session_id)).map (·.2)
    else []
  else st.cache session_id

/-- Model of `get_conversation_context` (lines 79-88): prefer the durable
read when it yields at least one message, otherwise fall back to the
in-process cache entry (created empty when absent). -/
def get_conversation_context (env : StoreEnv) (session_id : String)
    (st : ConvState) : List Msg :=
  let db_context := get_conversation_context_from_db env session_id st
  if db_context = [] then st.cache session_id else db_context

/-- A canonically formatted UUID session id used in concrete runs. -/
def uuidEx : String := "123e4567-e89b-12d3-a456-426614174000"

/-- Store environment with the durable store entirely unavailable (every
write and read attempt raises); `uuidEx` is the only valid session id. -/
def downEnv : StoreEnv :=
  { isUUID := fun s => s = uuidEx, writeOk := false, readOk := false }

/-! ## Chat endpoints (`src/api/chat.py`, lines 82-385) -/

/-- Kind of the exception escaping the endpoint's `try` body, matching the
`except` chain: `ValueError`, `SQLAlchemyError`, or any other exception
(classified by message text). -/
inductive ExcKind where
  | valueError
  | sqlalchemyError
  | generic
deriving DecidableEq

/-- Outcome of the `try` body of `send_chat_message` after admission
control: either the success dict's payload (response text, attributed
sources, retrieved-chunk count) or a raised exception with its kind and
message.  The body's internals (retrieval, history, completion call,
persistence) are modelled by the claims' dedicated definitions; the
endpoint-level claims only depend on this outcome. -/
inductive BodyOutcome where
  | success (response : String) (sources : List String) (retrieved : Nat)
  | raised (kind : ExcKind) (msg : String)
deriving DecidableEq

/-- The `ChatResult`-shaped success dict of `send_chat_message`
(lines 173-180 and 196-243); the constant usage metadata dict is
omitted. -/
structure ChatResult where
  session_id : String
  response : String
  sources : List String
  query : String
  retrieved_chunks : Nat
deriving DecidableEq

/-- An endpoint reply: either a raised `HTTPException` with its status code
and detail, or a `ChatResult`-shaped JSON body. -/
inductive EndpointReply where
  | http_error (status : Nat) (detail : String)
  | ok (r : ChatResult)
deriving DecidableEq

/-- Whether `needle` occurs as a leading segment of `hay`. -/
def leadSeg : List Char → List Char → Bool
  | [], _ => true
  | _ :: _, [] => false
  | a :: as, b :: bs => a == b && leadSeg as bs

/-- Whether `needle` occurs contiguously anywhere in `hay` (model of
Python's `in` on strings). -/
def containsSub (needle : List Char) : List Char → Bool
  | [] => leadSeg needle []
  | c :: rest => leadSeg needle (c :: rest) || containsSub needle rest

/-- Model of the generic `except Exception` classifier (lines 190-243):
scan the exception message (case-sensitively for `API key`, lowercased for
the other keywords) and pick the corresponding apologetic fallback
response text. -/
def classify_error_response (error_msg : String) : String :=
  let raw := error_msg.toList
  let lower := raw.map Char.toLower
  if containsSub "API key".toList raw || containsSub "auth".toList lower then
    "I'm sorry, but I'm currently unable to connect to the AI service. Please check that your API keys are configured correctly."
  else if containsSub "rate limit".toList lower || containsSub "quota".toList lower then
    "I'm sorry, but I've reached the rate limit for the AI service. Please try again later."
  else if containsSub "timeout".toList lower then
    "I'm sorry, but the request timed out. Please try again."
  else if containsSub "database".toList lower || containsSub "connection".toList lower then
    "I'm sorry, but there's a connection issue with the database. Please try again later."
  else
    "I'm sorry, there was an error processing your request. Please try again."

/-- Model of the `send_chat_message` endpoint (lines 82-243) around an
abstract body outcome: admission control first (HTTP 429, nothing else
runs), then the body; `ValueError` is re-raised as HTTP 400,
`SQLAlchemyError` as HTTP 500, and any other exception is converted to a
`ChatResult`-shaped reply with empty sources and a classified message.
Returns the reply together with the caller origin's updated rate-limiter
state. -/
def send_chat_message (now : Int) (times : Timestamps)
    (session_id content : String) (body : BodyOutcome) :
    EndpointReply × Timestamps :=
  let rl := is_rate_limited now times
  if rl.1 then
    (.http_error 429 "Rate limit exceeded. Please try again later.", rl.2)
  else
    match body with
    | .success resp srcs retrieved =>
        (.ok { session_id := session_id
               response := resp
               sources := srcs
               query := sanitize_input_str content
               retrieved_chunks := retrieved }, rl.2)
    | .raised .valueError msg =>
        (.http_error 400 ("Configuration error: " ++ msg), rl.2)
    | .raised .sqlalchemyError msg =>
        (.http_error 500 ("Database error: " ++ msg), rl.2)
    | .raised .generic msg =>
        (.ok { session_id := session_id
               response := classify_error_response msg
               sources := []
               query := sanitize_input_str content
               retrieved_chunks := 0 }, rl.2)

/-- The system message `ask_from_selection` builds (lines 300-305). -/
def selection_system_message (context_text : String) : String :=
  "You are an AI assistant for the Physical AI & Humanoid Robotics textbook.\nUse the following context to answer the user's question about the selected text.\nIf the context doesn't contain relevant information, say so.\nBe accurate, concise, and cite sources when possible.\n\nContext: " ++ context_text

/-- The reply dict of `ask_from_selection` (lines 321-327 and the fallback
branches); the constant usage metadata dict is omitted. -/
structure SelectionReply where
  status : Nat
  response : String
  sources : List String
  selected_text : String
  retrieved_chunks : Nat
deriving DecidableEq

/-- Result of one `ask_from_selection` call: the prompt handed to the
completion provider (`none` when admission control rejected before any
work), the reply, and the conversation-store state after the call. -/
structure AskOutcome where
  messages_sent : Option (List Msg)
  reply : SelectionReply
  conv : ConvState

/-- Model of the `ask_from_selection` endpoint (lines 245-385): admission
control, sanitization and clamping, retrieval, a two-message prompt
(system message with the joined context, then the current user message),
the completion call, and the same exception classification as
`send_chat_message`.  The conversation store is passed through untouched:
the code path neither reads nor appends history.  The completion
collaborator either returns response text or raises with a kind and
message. -/
def ask_from_selection (env : RetrieveEnv)
    (llm : List Msg → Except (ExcKind × String) String)
    (now : Int) (times : Timestamps) (content : String)
    (context_window : Int) (conv : ConvState) : AskOutcome × Timestamps :=
  let rl := is_rate_limited now times
  if rl.1 then
    ({ messages_sent := none
       reply := { status := 429
                  response := "Rate limit exceeded. Please try again later."
                  sources := []
                  selected_text := ""
                  retrieved_chunks := 0 }
       conv := conv }, rl.2)
  else
    let sanitized_content := sanitize_input_str content
    let cw := sanitized_context_window context_window
    let retrieved := retrieve env sanitized_content "humanoid_ai_book_new" cw.toNat
    let context_text := String.intercalate "\n\n" (retrieved.map (·.content))
    let messages : List Msg :=
      [("system", selection_system_message context_text),
       ("user", sanitized_content)]
    match llm messages with
    | .ok resp =>
        ({ messages_sent := some messages
           reply := { status := 200
                      response := resp
                      sources := retrieved.map (·.content)
                      selected_text := sanitized_content
                      retrieved_chunks := retrieved.length }
           conv := conv }, rl.2)
    | .error e =>
        ({ messages_sent := some messages
           reply := { status := if e.1 = .valueError then 400
                                else if e.1 = .sqlalchemyError then 500 else 200
                      response := if e.1 = .generic then classify_error_response e.2
                                  else e.2
                      sources := []
                      selected_text := sanitized_content
                      retrieved_chunks := 0 }
           conv := conv }, rl.2)

/-! ## Per-session locking traces (`src/services/agent.py` lines 193-264,
`src/api/chat.py` lines 92-171) -/

/-- Abstract step of one message-handling execution, at the granularity
relevant to session serialization: lock operations on a session's lock,
history read, history append, and the completion call. -/
inductive Step where
  | acquire (session : Nat)
  | release (session : Nat)
  | readHistory (session : Nat)
  | appendMsg (session : Nat)
  | callLLM
deriving DecidableEq

/-- Whether a step is a lock acquisition. -/
def isAcquire : Step → Bool
  | .acquire _ => true
  | _ => false

/-- Step sequence of the `send_chat_message` body for a session: read
history, call the completion provider, append the user turn, append the
assistant turn.  The path takes no per-session lock. -/
def send_chat_message_steps (s : Nat) : List Step :=
  [.readHistory s, .callLLM, .appendMsg s, .appendMsg s]

/-- Step sequence of `run_agent_with_context` for a session: the whole
body runs inside `with session_locks[session_id]`. -/
def run_agent_with_context_steps (s : Nat) : List Step :=
  [.acquire s, .readHistory s, .callLLM, .appendMsg s, .appendMsg s, .release s]

/-- An event of a two-thread schedule: the thread tag and its step. -/
abbrev Event := Bool × Step

/-- Tag every step of one execution with its thread. -/
def tagged (t : Bool) (l : List Step) : List Event :=
  l.map (fun st => (t, st))

/-- All merges of two executions that preserve each thread's own order,
computed with structural fuel so that it evaluates by reduction. -/
def interleavingsAux : Nat → List Event → List Event → List (List Event)
  | _, [], ys => [ys]
  | _, x :: xs, [] => [x :: xs]
  | 0, _ :: _, _ :: _ => []
  | n + 1, x :: xs, y :: ys =>
      (interleavingsAux n xs (y :: ys)).map (fun l => x :: l) ++
        (interleavingsAux n (x :: xs) ys).map (fun l => y :: l)

/-- All order-preserving merges of two executions. -/
def interleavings (xs ys : List Event) : List (List Event) :=
  interleavingsAux (xs.length + ys.length) xs ys

/-- Whether a schedule respects mutual exclusion of the per-session locks:
scanning left to right with the set of held locks, no thread acquires a
session lock another thread currently holds (such a schedule cannot occur,
since the acquiring thread would block instead). -/
def lockOk (held : List (Nat × Bool)) : List Event → Bool
  | [] => true
  | (t, .acquire s) :: rest =>
      if (held.map Prod.fst).contains s then false
      else lockOk ((s, t) :: held) rest
  | (t, .release s) :: rest =>
      lockOk (held.filter (fun h => !(h.1 == s && h.2 == t))) rest
  | _ :: rest => lockOk held rest

/-- Thread tags of the appends a schedule performs on one session, in
schedule order. -/
def appendTags (s : Nat) (trace : List Event) : List Bool :=
  trace.filterMap
    (fun e =>
      match e.2 with
      | .appendMsg s' => if s' = s then some e.1 else none
      | _ => none)

/-- Number of adjacent thread changes in a tag list; the two executions'
appends are non-interleaved (serialized) exactly when this is at most 1. -/
def blockChanges : List Bool → Nat
  | [] => 0
  | [_] => 0
  | a :: b :: rest => (if a = b then 0 else 1) + blockChanges (b :: rest)

/-- A lock-respecting schedule of two concurrent `send_chat_message`
executions on the same session whose history appends interleave
(user A, user B, assistant A, assistant B). -/
def sendPairBad : List Event :=
  [(false, .readHistory 0), (true, .readHistory 0),
   (false, .callLLM), (true, .callLLM),
   (false, .appendMsg 0), (true, .appendMsg 0),
   (false, .appendMsg 0), (true, .appendMsg 0)]

/-! ## Theorems -/

/-- C4: a request is rejected (and its timestamp not recorded) exactly when
the origin already has `RATE_LIMIT` recorded timestamps inside the trailing
window, and admitted (with its timestamp recorded) otherwise; consequently
ten requests in one window are admitted, the eleventh inside the window is
rejected without being recorded, and a request after the window has
expired is admitted again. -/
theorem C4_rate_limiter (now : Int) (times : Timestamps) :
    (RATE_LIMIT ≤ (times.filter (fun t => now - t < RATE_LIMIT_WINDOW)).length →
        is_rate_limited now times =
          (true, times.filter (fun t => now - t < RATE_LIMIT_WINDOW))) ∧
    ((times.filter (fun t => now - t < RATE_LIMIT_WINDOW)).length < RATE_LIMIT →
        is_rate_limited now times =
          (false, times.filter (fun t => now - t < RATE_LIMIT_WINDOW) ++ [now])) ∧
    (admitSeq [0, 1, 2, 3, 4, 5, 6, 7, 8, 9] []).1 =
      [true, true, true, true, true, true, true, true, true, true] ∧
    is_rate_limited 10 (admitSeq [0, 1, 2, 3, 4, 5, 6, 7, 8, 9] []).2 =
      (true, [0, 1, 2, 3, 4, 5, 6, 7, 8, 9]) ∧
    (is_rate_limited 70 (admitSeq [0, 1, 2, 3, 4, 5, 6, 7, 8, 9] []).2).1 = false := by
  refine ⟨fun h => ?_, fun h => ?_, ?_, ?_, ?_⟩
  · simp only [is_rate_limited, if_pos h]
  · simp only [is_rate_limited]
    rw [if_neg (by omega)]
  · decide
  · decide
  · decide

/-- Witness for C4: with ten fresh timestamps recorded the next request is
rejected and nothing is recorded; with no timestamps recorded a request is
admitted and recorded. -/
theorem C4_rate_limiter_witness :
    is_rate_limited 5 [0, 0, 0, 0, 0, 0, 0, 0, 0, 0] =
      (true, [0, 0, 0, 0, 0, 0, 0, 0, 0, 0]) ∧
    is_rate_limited 0 [] = (false, [0]) :=
  ⟨(C4_rate_limiter 5 [0, 0, 0, 0, 0, 0, 0, 0, 0, 0]).1 (by decide),
   (C4_rate_limiter 0 []).2.1 (by decide)⟩

/-- The escape step on one character never emits a raw markup
delimiter. -/
theorem escapeChar_noRawMarkup (c d : Char) (hd : d ∈ escapeChar c) :
    noRawMarkup d = true := by
  unfold escapeChar at hd
  split at hd
  · simp only [List.mem_cons, List.not_mem_nil, or_false] at hd
    rcases hd with rfl | rfl | rfl | rfl | rfl <;> decide
  · split at hd
    · simp only [List.mem_cons, List.not_mem_nil, or_false] at hd
      rcases hd with rfl | rfl | rfl | rfl <;> decide
    · split at hd
      · simp only [List.mem_cons, List.not_mem_nil, or_false] at hd
        rcases hd with rfl | rfl | rfl | rfl <;> decide
      · split at hd
        · simp only [List.mem_cons, List.not_mem_nil, or_false] at hd
          rcases hd with rfl | rfl | rfl | rfl | rfl | rfl <;> decide
        · split at hd
          · simp only [List.mem_cons, List.not_mem_nil, or_false] at hd
            rcases hd with rfl | rfl | rfl | rfl | rfl | rfl <;> decide
          · rw [List.mem_singleton] at hd
            subst hd
            rename_i h1 h2 h3 h4 h5
            simp [noRawMarkup, h2, h3, h4, h5]

/-- Escaping a run of the letter a leaves it unchanged. -/
theorem escape_replicate_a (n : Nat) :
    (List.replicate n 'a').flatMap escapeChar = List.replicate n 'a' := by
  induction n with
  | zero => rfl
  | succ n ih =>
      rw [List.replicate_succ, List.flatMap_cons, ih]
      rfl

/-- Stripping control characters from a run of the letter a leaves it
unchanged. -/
theorem filter_replicate_a (n : Nat) :
    (List.replicate n 'a').filter (fun c => !isStrippedControl c) =
      List.replicate n 'a' := by
  induction n with
  | zero => rfl
  | succ n ih => rw [List.replicate_succ, List.filter_cons_of_pos (by decide), ih]

/-- The sanitized output is contained in the escaped-and-stripped form of
the input. -/
theorem sanitize_input_subset (s : List Char) :
    sanitize_input s ⊆
      (s.flatMap escapeChar).filter (fun c => !isStrippedControl c) := by
  unfold sanitize_input
  split
  · rename_i hs
    subst hs
    intro c hc
    exact absurd hc (List.not_mem_nil c)
  · dsimp only
    split
    · exact List.take_subset _ _
    · exact fun c hc => hc

/-- C5: sanitization truncates to at most 5000 characters, leaves no
stripped control character and no raw markup delimiter in its output;
concretely, markup in a message is escaped while the bell byte 0x07 is
dropped and the newline kept, and a 10000-character message comes out
exactly 5000 characters long. -/
theorem C5_sanitize_input (s : List Char) :
    (sanitize_input s).length ≤ 5000 ∧
    (sanitize_input s).all (fun c => !isStrippedControl c) = true ∧
    (sanitize_input s).all noRawMarkup = true ∧
    sanitize_input ['<', 'b', '>', Char.ofNat 7, 'h', 'i', Char.ofNat 10] =
      ['&', 'l', 't', ';', 'b', '&', 'g', 't', ';', 'h', 'i', Char.ofNat 10] ∧
    (sanitize_input (List.replicate 10000 'a')).length = 5000 := by
  refine ⟨?_, ?_, ?_, by decide, ?_⟩
  · unfold sanitize_input
    split
    · rename_i hs
      subst hs
      simp
    · dsimp only
      split
      · rename_i h
        rw [List.length_take]
        omega
      · rename_i h
        omega
  · rw [List.all_eq_true]
    intro c hc
    exact (List.mem_filter.1 (sanitize_input_subset s hc)).2
  · rw [List.all_eq_true]
    intro c hc
    have hmem := (List.mem_filter.1 (sanitize_input_subset s hc)).1
    obtain ⟨a, _, hca⟩ := List.mem_flatMap.1 hmem
    exact escapeChar_noRawMarkup a c hca
  · have hlen : (List.replicate 10000 'a').length = 10000 :=
      List.length_replicate 10000 'a'
    have hne : List.replicate 10000 'a' ≠ [] := by
      intro h
      rw [h] at hlen
      exact absurd hlen (by norm_num)
    unfold sanitize_input
    rw [if_neg hne]
    dsimp only
    rw [escape_replicate_a, filter_replicate_a]
    rw [if_pos (by rw [hlen]; norm_num)]
    rw [List.length_take, hlen]
    norm_num

/-- C6: the context-window value handed to retrieval equals
`max 1 (min requested 10)`, always lies in `[1, 10]`, and in particular
requested values 0, 15 and 1000000 clamp to 1, 10 and 10. -/
theorem C6_context_window_clamped (context_window : Int) :
    sanitized_context_window context_window =
      max 1 (min context_window 10) ∧
    1 ≤ sanitized_context_window context_window ∧
    sanitized_context_window context_window ≤ 10 ∧
    sanitized_context_window 0 = 1 ∧
    sanitized_context_window 15 = 10 ∧
    sanitized_context_window 1000000 = 10 := by
  refine ⟨rfl, ?_, ?_, by decide, by decide, by decide⟩
  · exact le_max_left 1 _
  · simp only [sanitized_context_window, max_le_iff]
    exact ⟨by norm_num, min_le_right _ _⟩

/-- C1: retrieval absorbs every internal failure: whether the embedding
call raises or the vector-store query raises, `retrieve` returns the empty
list (and being a Lean function into chunk lists, it is total by
construction). -/
theorem C1_retrieve_total_on_failure (env : RetrieveEnv)
    (query coll : String) (limit : Nat) :
    ((∃ e, env.embed query = .error e) →
        retrieve env query coll limit = []) ∧
    (∀ v, env.embed query = .ok v →
        (∃ e, env.query_points coll v limit = .error e) →
        retrieve env query coll limit = []) := by
  constructor
  · rintro ⟨e, he⟩
    simp [retrieve, he]
  · rintro v hv ⟨e, he⟩
    simp [retrieve, hv, he]

/-- Witness for C1: with both collaborators raising, retrieval of a
concrete query returns the empty list. -/
theorem C1_retrieve_total_on_failure_witness :
    retrieve failingEnv "what is humanoid robotics" "humanoid_ai_book_new" 5 = [] :=
  (C1_retrieve_total_on_failure failingEnv "what is humanoid robotics"
    "humanoid_ai_book_new" 5).1 ⟨"down", rfl⟩

/-- C7 counterexample: a returned point whose payload has no `text` key and
an empty-string `content` value yields a chunk whose content is the
stringified payload, not the `content` field's value, because the
fallback chain tests the value for truthiness rather than the key for
presence. -/
theorem C7_content_fallback_counterexample :
    ([("content", "")] : Payload).lookup "text" = none ∧
    ([("content", "")] : Payload).lookup "content" = some "" ∧
    retrieve emptyContentEnv "q" "humanoid_ai_book_new" 5 =
      [{ content := "\x7b'content': ''\x7d"
         score := 1
         metadata := .whole [("content", "")] }] ∧
    ("\x7b'content': ''\x7d" : String) ≠ "" := by
  refine ⟨rfl, rfl, rfl, by decide⟩

/-- C7 amended: every returned point yields exactly one chunk; the chunk's
content is the `text` value whenever the `text` key is present (even when
empty), otherwise the `content` value when that value is non-empty, and
the stringified payload when the `content` key is absent or its value is
the empty string. -/
theorem C7_content_preference_amended (pt : ScoredPoint)
    (pts : List ScoredPoint) :
    (pts.map mapPoint).length = pts.length ∧
    (∀ t, pt.payload.lookup "text" = some t → (mapPoint pt).content = t) ∧
    (∀ c, pt.payload.lookup "text" = none →
        pt.payload.lookup "content" = some c → c ≠ "" →
        (mapPoint pt).content = c) ∧
    (pt.payload.lookup "text" = none →
        pt.payload.lookup "content" = some "" →
        (mapPoint pt).content = strPayload pt.payload) ∧
    (pt.payload.lookup "text" = none →
        pt.payload.lookup "content" = none →
        (mapPoint pt).content = strPayload pt.payload) := by
  refine ⟨List.length_map pts mapPoint, ?_, ?_, ?_, ?_⟩
  · intro t ht
    simp [mapPoint, ht]
  · intro c ht hc hne
    simp [mapPoint, ht, hc, hne]
  · intro ht hc
    simp [mapPoint, ht, hc]
  · intro ht hc
    simp [mapPoint, ht, hc]

/-- Witness for C7's amended statement: a point with a `text` payload field
maps to a chunk carrying that text, and a point with only a non-empty
`content` field maps to a chunk carrying that content. -/
theorem C7_content_preference_amended_witness :
    (mapPoint { payload := [("text", "hello")], score := 1 }).content =
      "hello" ∧
    (mapPoint { payload := [("content", "world")], score := 1 }).content =
      "world" :=
  ⟨(C7_content_preference_amended
      { payload := [("text", "hello")], score := 1 } []).2.1 "hello" rfl,
   (C7_content_preference_amended
      { payload := [("content", "world")], score := 1 } []).2.2.1 "world"
      rfl rfl (by decide)⟩

/-- C2, divergence at the failing input (code bug): with the durable store
entirely unavailable, appending one message to a fresh valid-UUID session
lands it in the in-process cache twice — once via the durable-path
fallback of `add_message_to_context_in_db`, once via the unconditional
cache update of `add_message_to_context` — so the subsequent history read
returns the message twice instead of exactly the one appended message. -/
theorem C2_degraded_append_duplicates :
    get_conversation_context downEnv uuidEx
        (add_message_to_context downEnv uuidEx "user" "hi" emptyConv) =
      [("user", "hi"), ("user", "hi")] ∧
    get_conversation_context downEnv uuidEx
        (add_message_to_context downEnv uuidEx "user" "hi" emptyConv) ≠
      [("user", "hi")] := by
  refine ⟨rfl, by decide⟩

/-- C10: a history read of a session that has no in-process cache entry
content and no durable rows — whatever the store's availability and
whether or not the session id parses as a UUID — returns the empty list. -/
theorem C10_fresh_session_reads_empty (env : StoreEnv) (sid : String)
    (st : ConvState) (hcache : st.cache sid = [])
    (hdur : st.durable.filter (fun r => r.1 = sid) = []) :
    get_conversation_context env sid st = [] := by
  unfold get_conversation_context get_conversation_context_from_db
  cases hr : env.readOk with
  | false => simp [hr, hcache]
  | true =>
      cases hu : env.isUUID sid with
      | false => simp [hu, hcache]
      | true => simp [hu, hdur, hcache]

/-- Witness for C10: on the empty store, reading a session id that does
not parse as a UUID returns the empty list. -/
theorem C10_fresh_session_reads_empty_witness :
    emptyConv.cache "not-a-uuid" = [] ∧
    emptyConv.durable.filter (fun r => r.1 = "not-a-uuid") = [] ∧
    get_conversation_context
        { isUUID := fun _ => false, writeOk := true, readOk := true }
        "not-a-uuid" emptyConv = [] :=
  ⟨rfl, rfl, C10_fresh_session_reads_empty _ "not-a-uuid" emptyConv rfl rfl⟩

/-- Each of the five classified fallback responses is a non-empty
explanatory message. -/
theorem classify_error_response_ne_empty (msg : String) :
    classify_error_response msg ≠ "" := by
  unfold classify_error_response
  dsimp only
  split
  · decide
  · split
    · decide
    · split
      · decide
      · split <;> decide

/-- C3 counterexample: after admission control passes, a raised
`SQLAlchemyError` surfaces as a bare HTTP 500 (and a raised `ValueError`
as HTTP 400) instead of a `ChatResult`-shaped reply, although both arise
after admission control and neither is a malformed-request rejection. -/
theorem C3_http_error_counterexample :
    (is_rate_limited 0 []).1 = false ∧
    (send_chat_message 0 [] "s1" "hello"
        (.raised .sqlalchemyError "connection refused")).1 =
      .http_error 500 "Database error: connection refused" ∧
    (send_chat_message 0 [] "s1" "hello"
        (.raised .valueError "OPENROUTER_API_KEY environment variable is required")).1 =
      .http_error 400
        "Configuration error: OPENROUTER_API_KEY environment variable is required" := by
  refine ⟨by decide, by decide, by decide⟩

/-- C3 amended: admission-control rejection surfaces as HTTP 429; after
admission control, a generic exception produces a `ChatResult`-shaped
reply with empty sources and a non-empty classified message, while the two
typed re-raises are the exceptions to the policy: `ValueError` surfaces as
HTTP 400 and `SQLAlchemyError` as HTTP 500. -/
theorem C3_error_propagation_amended (now : Int) (times : Timestamps)
    (sid content msg : String) (body : BodyOutcome) :
    ((is_rate_limited now times).1 = true →
        (send_chat_message now times sid content body).1 =
          .http_error 429 "Rate limit exceeded. Please try again later.") ∧
    ((is_rate_limited now times).1 = false →
        (send_chat_message now times sid content (.raised .generic msg)).1 =
            .ok { session_id := sid
                  response := classify_error_response msg
                  sources := []
                  query := sanitize_input_str content
                  retrieved_chunks := 0 } ∧
          classify_error_response msg ≠ "" ∧
          (send_chat_message now times sid content (.raised .valueError msg)).1 =
            .http_error 400 ("Configuration error: " ++ msg) ∧
          (send_chat_message now times sid content (.raised .sqlalchemyError msg)).1 =
            .http_error 500 ("Database error: " ++ msg)) := by
  constructor
  · intro h
    simp [send_chat_message, h]
  · intro h
    exact ⟨by simp [send_chat_message, h], classify_error_response_ne_empty msg,
      by simp [send_chat_message, h], by simp [send_chat_message, h]⟩

/-- Witness for C3's amended statement: a fully rate-limited origin gets
HTTP 429, and past admission control a generic exception gets the
`ChatResult`-shaped fallback with empty sources. -/
theorem C3_error_propagation_amended_witness :
    (send_chat_message 5 [0, 0, 0, 0, 0, 0, 0, 0, 0, 0] "s1" "hello"
        (.success "ok" [] 0)).1 =
      .http_error 429 "Rate limit exceeded. Please try again later." ∧
    (send_chat_message 0 [] "s1" "hello" (.raised .generic "boom")).1 =
      .ok { session_id := "s1"
            response := classify_error_response "boom"
            sources := []
            query := sanitize_input_str "hello"
            retrieved_chunks := 0 } :=
  ⟨(C3_error_propagation_amended 5 [0, 0, 0, 0, 0, 0, 0, 0, 0, 0] "s1" "hello"
      "boom" (.success "ok" [] 0)).1
      (by decide),
   ((C3_error_propagation_amended 0 [] "s1" "hello" "boom"
      (.success "ok" [] 0)).2 (by decide)).1⟩

/-- C8: the selection entry point leaves the conversation store (in-process
cache and durable log) exactly as it found it, its reply does not depend
on the conversation store contents, and whenever the completion provider
is reached the prompt is exactly one system message followed by the single
current (sanitized) user message — no history messages. -/
theorem C8_selection_stateless (env : RetrieveEnv)
    (llm : List Msg → Except (ExcKind × String) String) (now : Int)
    (times : Timestamps) (content : String) (cw : Int)
    (conv conv' : ConvState) :
    (ask_from_selection env llm now times content cw conv).1.conv = conv ∧
    (ask_from_selection env llm now times content cw conv).1.reply =
      (ask_from_selection env llm now times content cw conv').1.reply ∧
    (∀ msgs,
        (ask_from_selection env llm now times content cw conv).1.messages_sent =
          some msgs →
        ∃ ctx, msgs = [("system", selection_system_message ctx),
                       ("user", sanitize_input_str content)]) := by
  refine ⟨?_, ?_, ?_⟩
  · simp only [ask_from_selection]
    split
    · rfl
    · split <;> rfl
  · simp only [ask_from_selection]
    split
    · rfl
    · split <;> rfl
  · intro msgs h
    simp only [ask_from_selection] at h
    split at h
    · simp at h
    · split at h <;>
        · simp only [AskOutcome.mk.injEq] at h
          obtain rfl := Option.some.inj h
          exact ⟨_, rfl⟩

/-- Witness for C8: a concrete call (collaborators down, completion
returning a fixed text) sends exactly the two-message prompt. -/
theorem C8_selection_stateless_witness :
    ∃ ctx,
      ([("system", selection_system_message ""),
        ("user", sanitize_input_str "what is a humanoid")] : List Msg) =
        [("system", selection_system_message ctx),
         ("user", sanitize_input_str "what is a humanoid")] :=
  (C8_selection_stateless failingEnv (fun _ => .ok "hi") 0 [] "what is a humanoid"
      5 emptyConv emptyConv).2.2
    [("system", selection_system_message ""),
     ("user", sanitize_input_str "what is a humanoid")] rfl

/-- C9 counterexample: the schedule `sendPairBad` is an order-preserving,
lock-respecting merge of two concurrent `send_chat_message` executions on
the same session whose four history appends strictly alternate between the
two calls (three thread changes), so that entry path's persisted turns do
interleave within the session. -/
theorem C9_send_path_interleaves_counterexample :
    sendPairBad ∈
      interleavings (tagged false (send_chat_message_steps 0))
        (tagged true (send_chat_message_steps 0)) ∧
    lockOk [] sendPairBad = true ∧
    blockChanges (appendTags 0 sendPairBad) = 3 := by
  refine ⟨by decide, by decide, by decide⟩

set_option maxRecDepth 8192 in
/-- C9 amended: in every lock-respecting schedule of two concurrent
`run_agent_with_context` executions on the same session the history
appends do not interleave (the per-session lock serializes them), every
schedule of two executions on different sessions respects the locks (full
parallelism), the `send_chat_message` endpoint path acquires no
per-session lock, and some lock-respecting schedule of two of its
executions on one session has interleaved appends. -/
theorem C9_per_session_locking_amended :
    ((interleavings (tagged false (run_agent_with_context_steps 0))
          (tagged true (run_agent_with_context_steps 0))).all
        (fun tr => !lockOk [] tr ||
          Nat.ble (blockChanges (appendTags 0 tr)) 1)) = true ∧
    ((interleavings (tagged false (run_agent_with_context_steps 0))
          (tagged true (run_agent_with_context_steps 1))).all
        (fun tr => lockOk [] tr)) = true ∧
    (∀ s, (send_chat_message_steps s).all (fun st => !isAcquire st) = true) ∧
    ((interleavings (tagged false (send_chat_message_steps 0))
          (tagged true (send_chat_message_steps 0))).any
        (fun tr => lockOk [] tr &&
          !Nat.ble (blockChanges (appendTags 0 tr)) 1)) = true := by
  refine ⟨by decide, by decide, fun s => rfl, by decide⟩

end ChatBackend
